import Mathlib

/-!
Shallow embedding of the go-groq-hexagonal backend (groq-hexagonal-api).

The embedding follows the Go source layer by layer:

* `Domain`      — internal/domain/chat.go (entities and helper constructors);
* `Application` — internal/application ChatServiceImpl (SendMessage);
* `Groq`        — internal/infrastructure/groq/groq_client.go
                  (doRequest, CreateChatCompletion, ListModels);
* `HttpApi`     — internal/infrastructure/http (DTOs, Validate, HandleChat).

Conventions of the embedding:

* Go `int` / `int64` fields are modelled as `Int` (no arithmetic in the
  relevant code ever overflows or wraps, the values are only stored,
  compared with 0/200/300 and copied).
* `*float64` (the optional temperature) is modelled as `Option ℚ`: the
  only operations the code performs on it are order comparisons against
  the literals 0 and 2, which agree with rational comparison on every
  numeric float value.
* Go `error` results are modelled as `Except`; each distinct error value
  of the source is a distinct constructor (or a distinct message string).
* The outbound network call of the Groq client is abstracted as the
  upstream reply it would observe (`UpstreamReply` = status code + raw
  body), and `json.Unmarshal` of a response body is abstracted as an
  explicit parse function argument; `json.Marshal` of a `ChatRequest`
  cannot fail for these struct types, so that branch is elided.
* Calls across the two ports (ChatService and GroqRepository) are made
  observable: `SendMessage` also returns the list of requests it passed
  to `CreateChatCompletion`, and `HandleChat` also returns the list of
  `SendMessage` invocations plus the accumulated gateway calls, so that
  "the stub records zero calls" style properties are statable.
-/

namespace Domain

/-- internal/domain/chat.go: `ChatMessage` — role ("system" / "user" /
"assistant") and content. -/
structure ChatMessage where
  role : String
  content : String
deriving DecidableEq

/-- internal/domain/chat.go: `ChatRequest` — messages, model, optional
temperature (a nil-able pointer in Go) and max tokens (plain `int`,
zero value 0). -/
structure ChatRequest where
  messages : List ChatMessage
  model : String
  temperature : Option ℚ
  maxTokens : Int
deriving DecidableEq

/-- internal/domain/chat.go: `Usage` token counters. -/
structure Usage where
  promptTokens : Int
  completionTokens : Int
  totalTokens : Int
deriving DecidableEq

/-- internal/domain/chat.go: `Choice` — one candidate completion. -/
structure Choice where
  index : Int
  message : ChatMessage
  finishReason : String
deriving DecidableEq

/-- internal/domain/chat.go: `ChatResponse` returned by the upstream API. -/
structure ChatResponse where
  id : String
  object : String
  created : Int
  model : String
  choices : List Choice
  usage : Usage
deriving DecidableEq

/-- internal/domain/chat.go: `Model` (an available model); `Created` is a
`time.Time` in Go, modelled as its unix value, it is never inspected. -/
structure Model where
  id : String
  object : String
  created : Int
  ownedBy : String
deriving DecidableEq

/-- internal/domain/chat.go: `ModelsResponse`. -/
structure ModelsResponse where
  object : String
  data : List Model
deriving DecidableEq

/-- internal/domain/chat.go: `NewChatMessage`. -/
def NewChatMessage (role content : String) : ChatMessage :=
  { role := role, content := content }

/-- internal/domain/chat.go: `NewChatRequest` — only `Model` and
`Messages` are set; `Temperature` keeps its zero value `nil` and
`MaxTokens` its zero value `0`. -/
def NewChatRequest (model : String) (messages : List ChatMessage) : ChatRequest :=
  { messages := messages, model := model, temperature := none, maxTokens := 0 }

/-- internal/domain/chat.go: `ChatResponse.GetResponseContent` — the
content of the first choice when one exists, `""` otherwise. -/
def ChatResponse.GetResponseContent (c : ChatResponse) : String :=
  if h : 0 < c.choices.length then
    (c.choices.get ⟨0, h⟩).message.content
  else
    ""

/-- internal/domain/chat.go: `ChatResponse.IsComplete` — true when there
is a choice and the first one finished with "stop". -/
def ChatResponse.IsComplete (c : ChatResponse) : Bool :=
  if h : 0 < c.choices.length then
    decide ((c.choices.get ⟨0, h⟩).finishReason = "stop")
  else
    false

end Domain

namespace Application

/-- The errors `ChatServiceImpl.SendMessage` can return
(internal/application): the package-level sentinel errors
`ErrEmptyMessage` and `ErrEmptyModel`, the wrap
`fmt.Errorf("error al obtener respuesta de Groq: %w", err)` of a
repository error (the original cause `ε` is preserved by `%w`), and the
fresh `errors.New("la respuesta no contiene opciones")`. -/
inductive ServiceError (ε : Type) where
  | errEmptyMessage
  | errEmptyModel
  | groqWrapped (cause : ε)
  | emptyResponse
deriving DecidableEq

/-- internal/application: `ChatServiceImpl.SendMessage`.

The injected `groqRepo` port is a function argument (its Go error type is
abstract, parameter `ε`); the struct field `defaultModel` is an explicit
argument. Besides the `(response, error)` pair the embedding returns the
list of requests passed to `groqRepo.CreateChatCompletion`, in call
order, so that call-count properties can be stated. -/
def SendMessage {ε : Type}
    (groqRepo : Domain.ChatRequest → Except ε Domain.ChatResponse)
    (defaultModel : String) (message model : String) :
    Except (ServiceError ε) Domain.ChatResponse × List Domain.ChatRequest :=
  if message.length = 0 then
    (Except.error ServiceError.errEmptyMessage, [])
  else
    let model1 := if model = "" then defaultModel else model
    if model1 = "" then
      (Except.error ServiceError.errEmptyModel, [])
    else
      let userMessage := Domain.NewChatMessage "user" message
      let request := Domain.NewChatRequest model1 [userMessage]
      match groqRepo request with
      | Except.error err => (Except.error (ServiceError.groqWrapped err), [request])
      | Except.ok response =>
        if response.choices.length = 0 then
          (Except.error ServiceError.emptyResponse, [request])
        else
          (Except.ok response, [request])

end Application

namespace Groq

/-- The upstream HTTP reply observed by `doRequest` after
`httpClient.Do` succeeded and the body was read: status code and raw
body. (Network-level failures before a reply exists are outside the
claims about this layer.) -/
structure UpstreamReply where
  statusCode : Int
  body : String
deriving DecidableEq

/-- internal/infrastructure/groq/groq_client.go: the status-checking part
of `GroqClient.doRequest` — any status outside [200, 300) becomes the
error `fmt.Errorf("API retornó status %d: %s", resp.StatusCode,
string(responseBody))`, otherwise the raw body is returned. -/
def doRequest (resp : UpstreamReply) : Except String String :=
  if resp.statusCode < 200 ∨ 300 ≤ resp.statusCode then
    Except.error ("API retornó status " ++ toString resp.statusCode ++ ": " ++ resp.body)
  else
    Except.ok resp.body

/-- The two error shapes `GroqClient` methods produce after a reply was
observed: a wrapped `doRequest` failure (upstream rejection) and a
wrapped `json.Unmarshal` failure (deserialization); the constructor
carries the full Go error message. -/
inductive GroqError where
  | httpError (msg : String)
  | parseError (msg : String)
deriving DecidableEq

/-- The Go `Error()` string of a `GroqError`. -/
def GroqError.message : GroqError → String
  | GroqError.httpError m => m
  | GroqError.parseError m => m

/-- internal/infrastructure/groq/groq_client.go: `CreateChatCompletion`.
`unmarshalChat` abstracts `json.Unmarshal` into `domain.ChatResponse`
(its error is the unmarshal error message). `json.Marshal(request)`
cannot fail for these struct types, so that branch is elided. -/
def CreateChatCompletion
    (unmarshalChat : String → Except String Domain.ChatResponse)
    (upstream : UpstreamReply) : Except GroqError Domain.ChatResponse :=
  match doRequest upstream with
  | Except.error e => Except.error (GroqError.httpError ("error en la petición HTTP: " ++ e))
  | Except.ok responseBody =>
    match unmarshalChat responseBody with
    | Except.error e => Except.error (GroqError.parseError ("error al parsear respuesta: " ++ e))
    | Except.ok chatResponse => Except.ok chatResponse

/-- internal/infrastructure/groq/groq_client.go: `ListModels`, with
`unmarshalModels` abstracting `json.Unmarshal` into
`domain.ModelsResponse`. -/
def ListModels
    (unmarshalModels : String → Except String Domain.ModelsResponse)
    (upstream : UpstreamReply) : Except GroqError Domain.ModelsResponse :=
  match doRequest upstream with
  | Except.error e => Except.error (GroqError.httpError ("error al obtener modelos: " ++ e))
  | Except.ok responseBody =>
    match unmarshalModels responseBody with
    | Except.error e => Except.error (GroqError.parseError ("error al parsear modelos: " ++ e))
    | Except.ok modelsResponse => Except.ok modelsResponse

end Groq

namespace HttpApi

/-- internal/infrastructure/http: the `ChatRequest` DTO decoded from the
client body. Absent JSON fields leave Go zero values: `Model = ""`,
`Temperature = nil`, `MaxTokens = 0`. -/
structure ChatRequest where
  message : String
  model : String
  temperature : Option ℚ
  maxTokens : Int
deriving DecidableEq

/-- The three validation errors of internal/infrastructure/http
(`ErrEmptyMessage`, `ErrInvalidTemperature`, `ErrInvalidMaxTokens`),
each a `ValidationError` holding a fixed message. -/
inductive ValidationError where
  | errEmptyMessage
  | errInvalidTemperature
  | errInvalidMaxTokens
deriving DecidableEq

/-- The `Error()` string of each validation error value. -/
def ValidationError.message : ValidationError → String
  | ValidationError.errEmptyMessage => "el mensaje no puede estar vacío"
  | ValidationError.errInvalidTemperature => "la temperatura debe estar entre 0 y 2"
  | ValidationError.errInvalidMaxTokens => "max_tokens debe ser mayor o igual a 0"

/-- internal/infrastructure/http: `ChatRequest.Validate` — empty message,
then temperature in [0,2] when present, then non-negative max tokens;
`none` means the request is valid. -/
def ChatRequest.Validate (r : ChatRequest) : Option ValidationError :=
  if r.message = "" then
    some ValidationError.errEmptyMessage
  else
    match r.temperature with
    | some temp =>
      if temp < 0 ∨ temp > 2 then
        some ValidationError.errInvalidTemperature
      else if r.maxTokens < 0 then
        some ValidationError.errInvalidMaxTokens
      else
        none
    | none =>
      if r.maxTokens < 0 then
        some ValidationError.errInvalidMaxTokens
      else
        none

/-- internal/infrastructure/http: `UsageInfo` response DTO. -/
structure UsageInfo where
  promptTokens : Int
  completionTokens : Int
  totalTokens : Int
deriving DecidableEq

/-- internal/infrastructure/http: the `ChatResponse` DTO returned to the
client (`Error = ""` is the omitted zero value on success). -/
structure ChatResponse where
  success : Bool
  message : String
  model : String
  usage : Option UsageInfo
  error : String
deriving DecidableEq

/-- internal/infrastructure/http: `ErrorResponse` generic error DTO. -/
structure ErrorResponse where
  success : Bool
  error : String
  code : Int
deriving DecidableEq

/-- internal/infrastructure/http: `NewChatResponse` — success response
factory (`Success = true`). -/
def NewChatResponse (message model : String) (usage : Option UsageInfo) : ChatResponse :=
  { success := true, message := message, model := model, usage := usage, error := "" }

/-- internal/infrastructure/http: `NewErrorResponse`. -/
def NewErrorResponse (message : String) (code : Int) : ErrorResponse :=
  { success := false, error := message, code := code }

/-- What `json.NewDecoder(r.Body).Decode(&req)` yields for a POST body:
either a decode failure (with the Go error detail appended after
"JSON inválido: ") or a decoded `ChatRequest` DTO. -/
inductive RequestBody where
  | malformed (errDetail : String)
  | decoded (req : ChatRequest)
deriving DecidableEq

/-- The JSON body `HandleChat` writes: either an `ErrorResponse` (via
`writeErrorResponse`) or a success `ChatResponse`. -/
inductive ResponseBody where
  | errorBody (e : ErrorResponse)
  | chatBody (c : ChatResponse)
deriving DecidableEq

/-- The observable reply of one handler invocation: HTTP status code and
JSON body. -/
structure HttpReply where
  status : Int
  body : ResponseBody
deriving DecidableEq

/-- One `HandleChat` run: the HTTP reply, the `SendMessage` invocations
(message, model pairs) performed on the injected `ChatService`, and the
gateway (`CreateChatCompletion`) calls those invocations performed. -/
structure HandlerRun where
  reply : HttpReply
  serviceCalls : List (String × String)
  gatewayCalls : List Domain.ChatRequest
deriving DecidableEq

/-- internal/infrastructure/http (handlers): `ChatHandler.HandleChat`.

The injected `domain.ChatService` is the function argument
`chatService` (whose second component reports the gateway calls it
made, as produced by `Application.SendMessage`); `method` is
`r.Method` and `body` the decode outcome of the request body. Branches,
in source order: non-POST → 405; decode error → 400 with
"JSON inválido: " + detail; `req.Validate()` failure → 400 with the
validation message; service error → 500 with the generic
"error al procesar el mensaje"; success → 200 with the mapped DTO. -/
def HandleChat {ε : Type}
    (chatService : String → String →
      Except (Application.ServiceError ε) Domain.ChatResponse × List Domain.ChatRequest)
    (method : String) (body : RequestBody) : HandlerRun :=
  if method ≠ "POST" then
    { reply := { status := 405, body := ResponseBody.errorBody (NewErrorResponse "método no permitido" 405) },
      serviceCalls := [], gatewayCalls := [] }
  else
    match body with
    | RequestBody.malformed errDetail =>
      { reply := { status := 400,
                   body := ResponseBody.errorBody (NewErrorResponse ("JSON inválido: " ++ errDetail) 400) },
        serviceCalls := [], gatewayCalls := [] }
    | RequestBody.decoded req =>
      match req.Validate with
      | some verr =>
        { reply := { status := 400, body := ResponseBody.errorBody (NewErrorResponse verr.message 400) },
          serviceCalls := [], gatewayCalls := [] }
      | none =>
        match chatService req.message req.model with
        | (Except.error _, gcalls) =>
          { reply := { status := 500,
                       body := ResponseBody.errorBody (NewErrorResponse "error al procesar el mensaje" 500) },
            serviceCalls := [(req.message, req.model)], gatewayCalls := gcalls }
        | (Except.ok response, gcalls) =>
          { reply := { status := 200,
                       body := ResponseBody.chatBody (NewChatResponse
                         response.GetResponseContent
                         response.model
                         (some { promptTokens := response.usage.promptTokens,
                                 completionTokens := response.usage.completionTokens,
                                 totalTokens := response.usage.totalTokens })) },
            serviceCalls := [(req.message, req.model)], gatewayCalls := gcalls }

end HttpApi

/-- Substring occurrence: `sub` occurs contiguously inside `s` (stated on
the character lists). -/
def ContainsSubstr (s sub : String) : Prop :=
  sub.data <:+: s.data

instance (s sub : String) : Decidable (ContainsSubstr s sub) :=
  inferInstanceAs (Decidable (sub.data <:+: s.data))

/-! ### Helper lemmas -/

theorem string_length_eq_zero_iff {s : String} : s.length = 0 ↔ s = "" := by
  constructor
  · intro h
    cases s with
    | mk data =>
      have hd : data = [] := List.length_eq_zero.mp h
      simp [hd]
  · intro h
    simp [h]

theorem length_ne_zero_of_ne_empty {s : String} (h : s ≠ "") : ¬ s.length = 0 :=
  fun hl => h (string_length_eq_zero_iff.mp hl)

theorem validate_none_iff (msg model : String) (temp : Option ℚ) (mt : Int) :
    (HttpApi.ChatRequest.mk msg model temp mt).Validate = none ↔
      (msg ≠ "" ∧ (∀ t, temp = some t → 0 ≤ t ∧ t ≤ 2) ∧ 0 ≤ mt) := by
  unfold HttpApi.ChatRequest.Validate
  dsimp only
  cases temp with
  | none =>
    by_cases hm : msg = ""
    · simp [hm]
    · by_cases hmt : mt < 0
      · have hmt2 : ¬ (0:Int) ≤ mt := by omega
        simp [hm, hmt, hmt2]
      · have hmt2 : (0:Int) ≤ mt := by omega
        simp [hm, hmt, hmt2]
  | some t =>
    by_cases hm : msg = ""
    · simp [hm]
    · by_cases ht : t < 0 ∨ t > 2
      · rw [if_neg hm]
        dsimp only
        rw [if_pos ht]
        simp only [Option.some.injEq, reduceCtorEq, false_iff, not_and, not_forall]
        intro _ hall
        exfalso
        obtain ⟨h0, h2⟩ := hall t rfl
        rcases ht with ht | ht <;> linarith
      · by_cases hmt : mt < 0
        · have hmt2 : ¬ (0:Int) ≤ mt := by omega
          simp [hm, ht, hmt, hmt2]
        · have hmt2 : (0:Int) ≤ mt := by omega
          push_neg at ht
          have hor : ¬ (t < 0 ∨ t > 2) := by
            rw [not_or]
            exact ⟨not_lt.mpr ht.1, not_lt.mpr ht.2⟩
          rw [if_neg hm]
          dsimp only
          rw [if_neg hor, if_neg hmt]
          constructor
          · intro _
            refine ⟨hm, fun u hu => ?_, hmt2⟩
            injection hu with hu
            subst hu
            exact ht
          · intro _
            rfl

theorem validate_none_message (req : HttpApi.ChatRequest) (h : req.Validate = none) :
    req.message ≠ "" := by
  rcases req with ⟨msg, model, temp, mt⟩
  exact ((validate_none_iff msg model temp mt).mp h).1

/-! ### Claim theorems -/

/-- C3: for the empty message, `SendMessage` fails with the
`ErrEmptyMessage` sentinel and performs zero `CreateChatCompletion`
calls, for every gateway, default model and model argument. -/
theorem sendMessage_empty_message_no_gateway_call {ε : Type}
    (gw : Domain.ChatRequest → Except ε Domain.ChatResponse)
    (defaultModel model : String) :
    Application.SendMessage gw defaultModel "" model
      = (Except.error Application.ServiceError.errEmptyMessage, []) := rfl

/-- C2: with a non-empty message and an empty model argument,
`SendMessage` issues exactly one gateway request carrying the configured
default model; when the default model is empty too it fails with the
`ErrEmptyModel` sentinel without invoking the gateway. -/
theorem sendMessage_default_model_substitution {ε : Type}
    (gw : Domain.ChatRequest → Except ε Domain.ChatResponse)
    (defaultModel message : String) (hmsg : message ≠ "") :
    (defaultModel ≠ "" →
      (Application.SendMessage gw defaultModel message "").2
        = [Domain.NewChatRequest defaultModel [Domain.NewChatMessage "user" message]])
    ∧ (defaultModel = "" →
      Application.SendMessage gw defaultModel message ""
        = (Except.error Application.ServiceError.errEmptyModel, [])) := by
  have hlen : ¬ message.length = 0 := length_ne_zero_of_ne_empty hmsg
  constructor
  · intro hdm
    cases hg : gw (Domain.NewChatRequest defaultModel [Domain.NewChatMessage "user" message]) with
    | error e =>
      simp [Application.SendMessage, hlen, hdm, hg]
    | ok r =>
      by_cases hc : r.choices.length = 0
      · simp [Application.SendMessage, hlen, hdm, hg, hc]
      · simp [Application.SendMessage, hlen, hdm, hg, hc]
  · intro hdm
    simp [Application.SendMessage, hlen, hdm]

theorem sendMessage_default_model_substitution_witness :
    (Application.SendMessage (ε := Unit) (fun _ => Except.error ())
        "llama-3.3-70b-versatile" "hi" "").2
      = [Domain.NewChatRequest "llama-3.3-70b-versatile" [Domain.NewChatMessage "user" "hi"]] :=
  (sendMessage_default_model_substitution (fun _ => Except.error ())
    "llama-3.3-70b-versatile" "hi" (by decide)).1 (by decide)

/-- C7: when the gateway call succeeds, `SendMessage` fails with the
"la respuesta no contiene opciones" error (and still records the one
gateway call) when the returned choices are empty, and returns the
gateway response unchanged when they are not. -/
theorem sendMessage_empty_choices_rejected {ε : Type}
    (gw : Domain.ChatRequest → Except ε Domain.ChatResponse)
    (defaultModel message model : String) (resp : Domain.ChatResponse)
    (hmsg : message ≠ "")
    (hmodel : (if model = "" then defaultModel else model) ≠ "")
    (hgw : gw (Domain.NewChatRequest (if model = "" then defaultModel else model)
              [Domain.NewChatMessage "user" message]) = Except.ok resp) :
    (resp.choices = [] →
      Application.SendMessage gw defaultModel message model
        = (Except.error Application.ServiceError.emptyResponse,
           [Domain.NewChatRequest (if model = "" then defaultModel else model)
             [Domain.NewChatMessage "user" message]]))
    ∧ (resp.choices ≠ [] →
      Application.SendMessage gw defaultModel message model
        = (Except.ok resp,
           [Domain.NewChatRequest (if model = "" then defaultModel else model)
             [Domain.NewChatMessage "user" message]])) := by
  have hlen : ¬ message.length = 0 := length_ne_zero_of_ne_empty hmsg
  constructor
  · intro hc
    simp [Application.SendMessage, hlen, hmodel, hgw, hc]
  · intro hc
    have hc2 : ¬ resp.choices.length = 0 := by
      simpa [List.length_eq_zero] using hc
    simp [Application.SendMessage, hlen, hmodel, hgw, hc2]

theorem sendMessage_empty_choices_rejected_witness :
    Application.SendMessage (ε := Unit)
        (fun _ => Except.ok (Domain.ChatResponse.mk "id" "chat.completion" 0 "m" []
          (Domain.Usage.mk 0 0 0)))
        "d" "hi" ""
      = (Except.error Application.ServiceError.emptyResponse,
         [Domain.NewChatRequest "d" [Domain.NewChatMessage "user" "hi"]]) :=
  (sendMessage_empty_choices_rejected
    (fun _ => Except.ok (Domain.ChatResponse.mk "id" "chat.completion" 0 "m" []
      (Domain.Usage.mk 0 0 0)))
    "d" "hi" ""
    (Domain.ChatResponse.mk "id" "chat.completion" 0 "m" [] (Domain.Usage.mk 0 0 0))
    (by decide) (by decide) rfl).1 rfl

/-- C9: emptiness is decided purely by string length: the one-space
message passes the DTO validation and `SendMessage` forwards it verbatim
as the content of the user message. -/
theorem whitespace_message_accepted {ε : Type}
    (gw : Domain.ChatRequest → Except ε Domain.ChatResponse)
    (defaultModel model : String)
    (hmodel : (if model = "" then defaultModel else model) ≠ "") :
    (HttpApi.ChatRequest.mk " " model none 0).Validate = none
    ∧ (Application.SendMessage gw defaultModel " " model).2
        = [Domain.NewChatRequest (if model = "" then defaultModel else model)
            [Domain.NewChatMessage "user" " "]] := by
  have hlen : ¬ (" " : String).length = 0 := by decide
  constructor
  · rfl
  · cases hg : gw (Domain.NewChatRequest (if model = "" then defaultModel else model)
        [Domain.NewChatMessage "user" " "]) with
    | error e =>
      simp [Application.SendMessage, hlen, hmodel, hg]
    | ok r =>
      by_cases hc : r.choices.length = 0
      · simp [Application.SendMessage, hlen, hmodel, hg, hc]
      · simp [Application.SendMessage, hlen, hmodel, hg, hc]

theorem whitespace_message_accepted_witness :
    (HttpApi.ChatRequest.mk " " "m" none 0).Validate = none
    ∧ (Application.SendMessage (ε := Unit) (fun _ => Except.error ()) "d" " " "m").2
        = [Domain.NewChatRequest "m" [Domain.NewChatMessage "user" " "]] :=
  whitespace_message_accepted (fun _ => Except.error ()) "d" "m" (by decide)

/-- C10: `GetResponseContent` is total — the first choice content when
choices is non-empty, `""` when it is empty — and `IsComplete` is
`false` on an empty choices list. -/
theorem getResponseContent_total (c : Domain.ChatResponse) :
    (c.choices = [] → c.GetResponseContent = "" ∧ c.IsComplete = false)
    ∧ (∀ ch rest, c.choices = ch :: rest → c.GetResponseContent = ch.message.content) := by
  constructor
  · intro h
    constructor <;>
      simp [Domain.ChatResponse.GetResponseContent, Domain.ChatResponse.IsComplete, h]
  · intro ch rest h
    simp [Domain.ChatResponse.GetResponseContent, h]

theorem getResponseContent_total_witness :
    (Domain.ChatResponse.mk "" "" 0 "" [] (Domain.Usage.mk 0 0 0)).GetResponseContent = ""
    ∧ (Domain.ChatResponse.mk "" "" 0 "" [] (Domain.Usage.mk 0 0 0)).IsComplete = false :=
  (getResponseContent_total (Domain.ChatResponse.mk "" "" 0 "" [] (Domain.Usage.mk 0 0 0))).1 rfl

/-- C6: after an upstream reply, a non-2xx status makes both Groq client
methods fail with an upstream-rejection error whose message contains the
status code and the raw body, while a 2xx reply with a failing
deserialization yields a parse error, a value always distinct from any
upstream-rejection error. -/
theorem groqClient_error_surfacing
    (unmC : String → Except String Domain.ChatResponse)
    (unmM : String → Except String Domain.ModelsResponse)
    (upstream : Groq.UpstreamReply) :
    ((upstream.statusCode < 200 ∨ 300 ≤ upstream.statusCode) →
      (∃ m, Groq.CreateChatCompletion unmC upstream
            = Except.error (Groq.GroqError.httpError m)
          ∧ ContainsSubstr m (toString upstream.statusCode)
          ∧ ContainsSubstr m upstream.body)
      ∧ (∃ m, Groq.ListModels unmM upstream
            = Except.error (Groq.GroqError.httpError m)
          ∧ ContainsSubstr m (toString upstream.statusCode)
          ∧ ContainsSubstr m upstream.body))
    ∧ (¬ (upstream.statusCode < 200 ∨ 300 ≤ upstream.statusCode) →
        (∀ pe, unmC upstream.body = Except.error pe →
          Groq.CreateChatCompletion unmC upstream
            = Except.error (Groq.GroqError.parseError ("error al parsear respuesta: " ++ pe)))
        ∧ (∀ pe, unmM upstream.body = Except.error pe →
          Groq.ListModels unmM upstream
            = Except.error (Groq.GroqError.parseError ("error al parsear modelos: " ++ pe))))
    ∧ (∀ a b, Groq.GroqError.httpError a ≠ Groq.GroqError.parseError b) := by
  refine ⟨?_, ?_, ?_⟩
  · intro hbad
    have hdo : Groq.doRequest upstream = Except.error
        ("API retornó status " ++ toString upstream.statusCode ++ ": " ++ upstream.body) := by
      simp [Groq.doRequest, hbad]
    constructor
    · refine ⟨"error en la petición HTTP: "
          ++ ("API retornó status " ++ toString upstream.statusCode ++ ": " ++ upstream.body),
        ?_, ?_, ?_⟩
      · simp [Groq.CreateChatCompletion, hdo]
      · show (toString upstream.statusCode).data <:+: _
        refine ⟨("error en la petición HTTP: ").data ++ ("API retornó status ").data,
          (": ").data ++ upstream.body.data, ?_⟩
        simp [String.data_append, List.append_assoc]
      · show upstream.body.data <:+: _
        refine ⟨("error en la petición HTTP: ").data ++ (("API retornó status ").data
            ++ ((toString upstream.statusCode).data ++ (": ").data)), [], ?_⟩
        simp [String.data_append, List.append_assoc]
    · refine ⟨"error al obtener modelos: "
          ++ ("API retornó status " ++ toString upstream.statusCode ++ ": " ++ upstream.body),
        ?_, ?_, ?_⟩
      · simp [Groq.ListModels, hdo]
      · show (toString upstream.statusCode).data <:+: _
        refine ⟨("error al obtener modelos: ").data ++ ("API retornó status ").data,
          (": ").data ++ upstream.body.data, ?_⟩
        simp [String.data_append, List.append_assoc]
      · show upstream.body.data <:+: _
        refine ⟨("error al obtener modelos: ").data ++ (("API retornó status ").data
            ++ ((toString upstream.statusCode).data ++ (": ").data)), [], ?_⟩
        simp [String.data_append, List.append_assoc]
  · intro hgood
    have hdo : Groq.doRequest upstream = Except.ok upstream.body := by
      simp [Groq.doRequest, hgood]
    exact ⟨fun pe hpe => by simp [Groq.CreateChatCompletion, hdo, hpe],
           fun pe hpe => by simp [Groq.ListModels, hdo, hpe]⟩
  · intro a b h
    exact Groq.GroqError.noConfusion h

theorem groqClient_error_surfacing_witness :
    ∃ m, Groq.CreateChatCompletion (fun _ => Except.error "x")
            (Groq.UpstreamReply.mk 429 "upstream raw body")
          = Except.error (Groq.GroqError.httpError m)
        ∧ ContainsSubstr m (toString ((Groq.UpstreamReply.mk 429 "upstream raw body").statusCode))
        ∧ ContainsSubstr m ((Groq.UpstreamReply.mk 429 "upstream raw body").body) :=
  ((groqClient_error_surfacing (fun _ => Except.error "x") (fun _ => Except.error "x")
      (Groq.UpstreamReply.mk 429 "upstream raw body")).1 (by decide)).1

/-- C5: whenever the injected service fails, `HandleChat` answers with
the one fixed reply — status 500 and the constant generic body — so any
two service errors (even coming from different stub services and
requests) produce identical client-facing replies; the constant body
contains no three-digit upstream status string such as 429 or 500. -/
theorem handleChat_error_uniform_500 {ε₁ ε₂ : Type}
    (svc₁ : String → String →
      Except (Application.ServiceError ε₁) Domain.ChatResponse × List Domain.ChatRequest)
    (svc₂ : String → String →
      Except (Application.ServiceError ε₂) Domain.ChatResponse × List Domain.ChatRequest)
    (req₁ req₂ : HttpApi.ChatRequest)
    (e₁ : Application.ServiceError ε₁) (e₂ : Application.ServiceError ε₂)
    (h₁ : req₁.Validate = none) (h₂ : req₂.Validate = none)
    (hs₁ : (svc₁ req₁.message req₁.model).1 = Except.error e₁)
    (hs₂ : (svc₂ req₂.message req₂.model).1 = Except.error e₂) :
    (HttpApi.HandleChat svc₁ "POST" (HttpApi.RequestBody.decoded req₁)).reply
      = HttpApi.HttpReply.mk 500
          (HttpApi.ResponseBody.errorBody
            (HttpApi.NewErrorResponse "error al procesar el mensaje" 500))
    ∧ (HttpApi.HandleChat svc₁ "POST" (HttpApi.RequestBody.decoded req₁)).reply
        = (HttpApi.HandleChat svc₂ "POST" (HttpApi.RequestBody.decoded req₂)).reply
    ∧ ¬ ContainsSubstr "error al procesar el mensaje" (toString (429 : Int))
    ∧ ¬ ContainsSubstr "error al procesar el mensaje" (toString (500 : Int)) := by
  have k₁ : (HttpApi.HandleChat svc₁ "POST" (HttpApi.RequestBody.decoded req₁)).reply
      = HttpApi.HttpReply.mk 500
          (HttpApi.ResponseBody.errorBody
            (HttpApi.NewErrorResponse "error al procesar el mensaje" 500)) := by
    rcases hv : svc₁ req₁.message req₁.model with ⟨res, g⟩
    rw [hv] at hs₁
    simp only at hs₁
    subst hs₁
    simp [HttpApi.HandleChat, h₁, hv]
  have k₂ : (HttpApi.HandleChat svc₂ "POST" (HttpApi.RequestBody.decoded req₂)).reply
      = HttpApi.HttpReply.mk 500
          (HttpApi.ResponseBody.errorBody
            (HttpApi.NewErrorResponse "error al procesar el mensaje" 500)) := by
    rcases hv : svc₂ req₂.message req₂.model with ⟨res, g⟩
    rw [hv] at hs₂
    simp only at hs₂
    subst hs₂
    simp [HttpApi.HandleChat, h₂, hv]
  exact ⟨k₁, k₁.trans k₂.symm, by decide, by decide⟩

theorem handleChat_error_uniform_500_witness :
    (HttpApi.HandleChat
        (Application.SendMessage (ε := Groq.GroqError)
          (fun _ => Groq.CreateChatCompletion (fun _ => Except.error "x")
            (Groq.UpstreamReply.mk 429 "raw"))
          "llama-3.3-70b-versatile")
        "POST" (HttpApi.RequestBody.decoded (HttpApi.ChatRequest.mk "hi" "" none 0))).reply
      = HttpApi.HttpReply.mk 500
          (HttpApi.ResponseBody.errorBody
            (HttpApi.NewErrorResponse "error al procesar el mensaje" 500)) :=
  (handleChat_error_uniform_500
    (Application.SendMessage (ε := Groq.GroqError)
      (fun _ => Groq.CreateChatCompletion (fun _ => Except.error "x")
        (Groq.UpstreamReply.mk 429 "raw"))
      "llama-3.3-70b-versatile")
    (Application.SendMessage (ε := Groq.GroqError)
      (fun _ => Groq.CreateChatCompletion (fun _ => Except.error "x")
        (Groq.UpstreamReply.mk 429 "raw"))
      "llama-3.3-70b-versatile")
    (HttpApi.ChatRequest.mk "hi" "" none 0)
    (HttpApi.ChatRequest.mk "hi" "" none 0)
    (Application.ServiceError.groqWrapped (Groq.GroqError.httpError
      "error en la petición HTTP: API retornó status 429: raw"))
    (Application.ServiceError.groqWrapped (Groq.GroqError.httpError
      "error en la petición HTTP: API retornó status 429: raw"))
    rfl rfl rfl rfl).1

/-- C1 counterexample: a stub upstream returning one choice (content
"hello") and usage 5/3/8 but carrying the model string "other-model"
makes the handler answer 200 with model "other-model", not the
configured default model — the reply's model field is copied from the
upstream response, not from the default. -/
theorem handleChat_model_not_default_cex :
    (HttpApi.HandleChat (ε := Unit)
        (Application.SendMessage
          (fun _ => Except.ok (Domain.ChatResponse.mk "resp-1" "chat.completion" 0 "other-model"
            [Domain.Choice.mk 0 (Domain.ChatMessage.mk "assistant" "hello") "stop"]
            (Domain.Usage.mk 5 3 8)))
          "llama-3.3-70b-versatile")
        "POST"
        (HttpApi.RequestBody.decoded (HttpApi.ChatRequest.mk "hi" "" none 0))).reply
      = HttpApi.HttpReply.mk 200
          (HttpApi.ResponseBody.chatBody
            (HttpApi.ChatResponse.mk true "hello" "other-model"
              (some (HttpApi.UsageInfo.mk 5 3 8)) ""))
    ∧ "other-model" ≠ "llama-3.3-70b-versatile" := ⟨rfl, by decide⟩

/-- C1 (amended): for a POST /chat body with a non-empty message and no
model field, against a stub upstream returning one choice and a usage
record, the handler replies 200 with success true, message equal to the
choice content, usage equal to the upstream counters, and model equal to
the model carried by the upstream reply (hence equal to the default
exactly when the upstream echoes the requested default model); the one
gateway request carries the default model. -/
theorem handleChat_success_pipeline
    (defaultModel msg respId respObject respModel : String) (created : Int)
    (choice : Domain.Choice) (usage : Domain.Usage)
    (hmsg : msg ≠ "") (hdm : defaultModel ≠ "") :
    HttpApi.HandleChat (ε := Unit)
        (Application.SendMessage
          (fun _ => Except.ok (Domain.ChatResponse.mk respId respObject created respModel
            [choice] usage))
          defaultModel)
        "POST"
        (HttpApi.RequestBody.decoded (HttpApi.ChatRequest.mk msg "" none 0))
      = HttpApi.HandlerRun.mk
          (HttpApi.HttpReply.mk 200
            (HttpApi.ResponseBody.chatBody
              (HttpApi.ChatResponse.mk true choice.message.content respModel
                (some (HttpApi.UsageInfo.mk usage.promptTokens usage.completionTokens
                  usage.totalTokens)) "")))
          [(msg, "")]
          [Domain.ChatRequest.mk [Domain.ChatMessage.mk "user" msg] defaultModel none 0] := by
  have hlen : ¬ msg.length = 0 := length_ne_zero_of_ne_empty hmsg
  have hval : (HttpApi.ChatRequest.mk msg "" none 0).Validate = none :=
    (validate_none_iff msg "" none 0).mpr ⟨hmsg, fun t ht => by simp at ht, by norm_num⟩
  simp [HttpApi.HandleChat, hval, Application.SendMessage, hlen, hdm,
    Domain.ChatResponse.GetResponseContent, HttpApi.NewChatResponse,
    Domain.NewChatRequest, Domain.NewChatMessage]

theorem handleChat_success_pipeline_witness :
    HttpApi.HandleChat (ε := Unit)
        (Application.SendMessage
          (fun _ => Except.ok (Domain.ChatResponse.mk "resp-1" "chat.completion" 0
            "llama-3.3-70b-versatile"
            [Domain.Choice.mk 0 (Domain.ChatMessage.mk "assistant" "hello") "stop"]
            (Domain.Usage.mk 5 3 8)))
          "llama-3.3-70b-versatile")
        "POST"
        (HttpApi.RequestBody.decoded (HttpApi.ChatRequest.mk "hi" "" none 0))
      = HttpApi.HandlerRun.mk
          (HttpApi.HttpReply.mk 200
            (HttpApi.ResponseBody.chatBody
              (HttpApi.ChatResponse.mk true "hello" "llama-3.3-70b-versatile"
                (some (HttpApi.UsageInfo.mk 5 3 8)) "")))
          [("hi", "")]
          [Domain.ChatRequest.mk [Domain.ChatMessage.mk "user" "hi"]
            "llama-3.3-70b-versatile" none 0] :=
  handleChat_success_pipeline "llama-3.3-70b-versatile" "hi" "resp-1" "chat.completion"
    "llama-3.3-70b-versatile" 0
    (Domain.Choice.mk 0 (Domain.ChatMessage.mk "assistant" "hello") "stop")
    (Domain.Usage.mk 5 3 8) (by decide) (by decide)

/-- C8: for every accepted POST /chat request that reaches the gateway,
the one request the orchestrator sends carries exactly one message with
role "user" and the client's message as content, no temperature
(`none`), and max tokens 0 — whatever temperature or max_tokens the
client supplied. -/
theorem pipeline_gateway_request_shape {ε : Type}
    (gw : Domain.ChatRequest → Except ε Domain.ChatResponse)
    (defaultModel : String) (req : HttpApi.ChatRequest)
    (hval : req.Validate = none)
    (hmodel : (if req.model = "" then defaultModel else req.model) ≠ "") :
    (HttpApi.HandleChat (Application.SendMessage gw defaultModel) "POST"
        (HttpApi.RequestBody.decoded req)).gatewayCalls
      = [Domain.ChatRequest.mk [Domain.ChatMessage.mk "user" req.message]
          (if req.model = "" then defaultModel else req.model) none 0] := by
  have hmsg : req.message ≠ "" := validate_none_message req hval
  have hlen : ¬ req.message.length = 0 := length_ne_zero_of_ne_empty hmsg
  cases hg : gw (Domain.ChatRequest.mk [Domain.ChatMessage.mk "user" req.message]
      (if req.model = "" then defaultModel else req.model) none 0) with
  | error e =>
    simp [HttpApi.HandleChat, hval, Application.SendMessage, hlen, hmodel, hg,
      Domain.NewChatRequest, Domain.NewChatMessage]
  | ok r =>
    by_cases hc : r.choices.length = 0
    · simp [HttpApi.HandleChat, hval, Application.SendMessage, hlen, hmodel, hg, hc,
        Domain.NewChatRequest, Domain.NewChatMessage]
    · simp [HttpApi.HandleChat, hval, Application.SendMessage, hlen, hmodel, hg, hc,
        Domain.NewChatRequest, Domain.NewChatMessage]

theorem pipeline_gateway_request_shape_witness :
    (HttpApi.HandleChat (ε := Unit)
        (Application.SendMessage (fun _ => Except.error ()) "llama-3.3-70b-versatile") "POST"
        (HttpApi.RequestBody.decoded
          (HttpApi.ChatRequest.mk "hi" "" (some (2 : ℚ)) 999))).gatewayCalls
      = [Domain.ChatRequest.mk [Domain.ChatMessage.mk "user" "hi"]
          "llama-3.3-70b-versatile" none 0] := by
  have h := pipeline_gateway_request_shape (ε := Unit) (fun _ => Except.error ())
    "llama-3.3-70b-versatile" (HttpApi.ChatRequest.mk "hi" "" (some (2 : ℚ)) 999)
    (by decide) (by decide)
  simpa using h

/-- C4: on a POST request the handler answers 400 exactly when the body
is undecodable, or the decoded message is empty, or a supplied
temperature falls outside [0,2], or max_tokens is negative — both
numeric validations run at this single entry point — and in every 400
case the injected service records zero invocations. -/
theorem handleChat_post_400_iff {ε : Type}
    (chatService : String → String →
      Except (Application.ServiceError ε) Domain.ChatResponse × List Domain.ChatRequest)
    (body : HttpApi.RequestBody) :
    ((HttpApi.HandleChat chatService "POST" body).reply.status = 400 ↔
      ((∃ d, body = HttpApi.RequestBody.malformed d)
       ∨ (∃ req, body = HttpApi.RequestBody.decoded req
           ∧ (req.message = ""
              ∨ (∃ t, req.temperature = some t ∧ (t < 0 ∨ t > 2))
              ∨ req.maxTokens < 0))))
    ∧ ((HttpApi.HandleChat chatService "POST" body).reply.status = 400 →
        (HttpApi.HandleChat chatService "POST" body).serviceCalls = []) := by
  cases body with
  | malformed d =>
    constructor
    · constructor
      · intro _
        exact Or.inl ⟨d, rfl⟩
      · intro _
        simp [HttpApi.HandleChat]
    · intro _
      simp [HttpApi.HandleChat]
  | decoded req =>
    rcases req with ⟨msg, model, temp, mt⟩
    cases hV : (HttpApi.ChatRequest.mk msg model temp mt).Validate with
    | some v =>
      have hrun : HttpApi.HandleChat chatService "POST"
          (HttpApi.RequestBody.decoded (HttpApi.ChatRequest.mk msg model temp mt))
          = HttpApi.HandlerRun.mk
              (HttpApi.HttpReply.mk 400
                (HttpApi.ResponseBody.errorBody (HttpApi.NewErrorResponse v.message 400)))
              [] [] := by
        simp [HttpApi.HandleChat, hV]
      refine ⟨⟨fun _ => ?_, fun _ => by rw [hrun]⟩, fun _ => by rw [hrun]⟩
      refine Or.inr ⟨HttpApi.ChatRequest.mk msg model temp mt, rfl, ?_⟩
      by_cases hm : msg = ""
      · exact Or.inl hm
      by_cases hmt : mt < 0
      · exact Or.inr (Or.inr hmt)
      cases temp with
      | none =>
        exfalso
        rw [(validate_none_iff msg model none mt).mpr
          ⟨hm, fun t ht => by simp at ht, by omega⟩] at hV
        exact Option.noConfusion hV
      | some t =>
        by_cases hT : t < 0 ∨ t > 2
        · exact Or.inr (Or.inl ⟨t, rfl, hT⟩)
        · exfalso
          push_neg at hT
          rw [(validate_none_iff msg model (some t) mt).mpr
            ⟨hm, fun u hu => by injection hu with hu; subst hu; exact ⟨hT.1, hT.2⟩,
             by omega⟩] at hV
          exact Option.noConfusion hV
    | none =>
      obtain ⟨hm, htt, hmt⟩ := (validate_none_iff msg model temp mt).mp hV
      have hnot : ¬ ((∃ d, HttpApi.RequestBody.decoded (HttpApi.ChatRequest.mk msg model temp mt)
            = HttpApi.RequestBody.malformed d)
          ∨ (∃ req, HttpApi.RequestBody.decoded (HttpApi.ChatRequest.mk msg model temp mt)
              = HttpApi.RequestBody.decoded req
              ∧ (req.message = ""
                 ∨ (∃ t, req.temperature = some t ∧ (t < 0 ∨ t > 2))
                 ∨ req.maxTokens < 0))) := by
        rintro (⟨d, hd⟩ | ⟨req2, hreq, hbad⟩)
        · exact HttpApi.RequestBody.noConfusion hd
        · injection hreq with hreq
          subst hreq
          rcases hbad with h | ⟨t, htemp, hT⟩ | h
        -- the three bad cases each contradict the validity facts
          · exact hm h
          · obtain ⟨h0, h2⟩ := htt t htemp
            rcases hT with hT | hT <;> linarith
          · have h2 : mt < 0 := h
            omega
      rcases hsv : chatService msg model with ⟨res, g⟩
      cases res with
      | error e =>
        have hstat : (HttpApi.HandleChat chatService "POST"
            (HttpApi.RequestBody.decoded (HttpApi.ChatRequest.mk msg model temp mt))).reply.status
            = 500 := by
          simp [HttpApi.HandleChat, hV, hsv]
        refine ⟨⟨fun h400 => ?_, fun hr => absurd hr hnot⟩, fun h400 => ?_⟩
        · rw [hstat] at h400
          exact absurd h400 (by decide)
        · rw [hstat] at h400
          exact absurd h400 (by decide)
      | ok r =>
        have hstat : (HttpApi.HandleChat chatService "POST"
            (HttpApi.RequestBody.decoded (HttpApi.ChatRequest.mk msg model temp mt))).reply.status
            = 200 := by
          simp [HttpApi.HandleChat, hV, hsv]
        refine ⟨⟨fun h400 => ?_, fun hr => absurd hr hnot⟩, fun h400 => ?_⟩
        · rw [hstat] at h400
          exact absurd h400 (by decide)
        · rw [hstat] at h400
          exact absurd h400 (by decide)

theorem handleChat_post_400_iff_witness :
    (HttpApi.HandleChat (ε := Unit) (fun _ _ => (Except.error Application.ServiceError.errEmptyMessage, []))
        "POST" (HttpApi.RequestBody.decoded (HttpApi.ChatRequest.mk "" "" none 0))).reply.status
      = 400
    ∧ (HttpApi.HandleChat (ε := Unit) (fun _ _ => (Except.error Application.ServiceError.errEmptyMessage, []))
        "POST" (HttpApi.RequestBody.decoded (HttpApi.ChatRequest.mk "" "" none 0))).serviceCalls
      = [] := by
  have h := handleChat_post_400_iff (ε := Unit)
    (fun _ _ => (Except.error Application.ServiceError.errEmptyMessage, []))
    (HttpApi.RequestBody.decoded (HttpApi.ChatRequest.mk "" "" none 0))
  have h400 : (HttpApi.HandleChat (ε := Unit)
      (fun _ _ => (Except.error Application.ServiceError.errEmptyMessage, []))
      "POST" (HttpApi.RequestBody.decoded (HttpApi.ChatRequest.mk "" "" none 0))).reply.status
      = 400 :=
    h.1.mpr (Or.inr ⟨HttpApi.ChatRequest.mk "" "" none 0, rfl, Or.inl rfl⟩)
  exact ⟨h400, h.2 h400⟩
